import Mathlib

/-!
Verification of the gb-keepalive repository: a Cloudflare-Workers keepalive
checker (two checker variants) plus a remediation ("deploy") service worker.

The development shallowly embeds the JavaScript sources:

* the retrying probe `fetchWithTimeout` (two variants: the `retries <= MAX_RETRIES`
  recursion of `keepUpCheck_worker.js` and of the first unnamed worker, and the
  `attempt < MAX_ATTEMPT` recursion of the second unnamed worker),
* the final-failure handler `handleFinalFailure` (with and without the KV
  idempotency pre-check),
* the bounded-concurrency runner `runWithConcurrency` as a step relation,
* the remediation service (`fetch` router, `run` core flow), and
* the UTF-8 / base64 codec helpers `base64EncodeUtf8` / `base64DecodeUtf8`.

Network responses, the key-value store contents and the wall clock are
external inputs; they are passed to the embedded functions as explicit
oracle arguments.
-/

namespace GbKeepalive

/-! ## Configuration constants, as in the sources -/

/-- Per-request timeout in milliseconds (`TIMEOUT = 5000`). -/
def TIMEOUT : Nat := 5000

/-- Maximum retry count of the `retries`-style checkers (`MAX_RETRIES = 3`). -/
def MAX_RETRIES : Nat := 3

/-- Attempt budget of the `attempt`-style checker (`MAX_ATTEMPT = 3`). -/
def MAX_ATTEMPT : Nat := 3

/-- Initial backoff delay in milliseconds (`RETRY_DELAY = 500`). -/
def RETRY_DELAY : Nat := 500

/-- Concurrency limit of the task runner (`CONCURRENCY = 3`). -/
def CONCURRENCY : Nat := 3

/-- Idempotency flag time-to-live in seconds (`FLAG_TTL = 3 * 60 * 60`). -/
def FLAG_TTL : Nat := 3 * 60 * 60

/-! ## Probe outcomes

One `fetch` attempt, as observed by the checker, either yields a response
with some HTTP status, aborts on the 5-second timer (`AbortError`), or
rejects with some other transport error.  The per-attempt outcome is an
external input, supplied as an oracle from attempt number to outcome. -/

inductive FetchOutcome
  /-- A response arrived carrying this HTTP status code. -/
  | status (s : Nat)
  /-- The `AbortController` fired: the attempt timed out. -/
  | timeout
  /-- `fetch` rejected with a transport-level error. -/
  | netError
deriving DecidableEq

/-- `response.ok` in JavaScript: status in the inclusive range 200–299. -/
def responseOk (s : Nat) : Prop := 200 ≤ s ∧ s < 300

instance (s : Nat) : Decidable (responseOk s) := by
  unfold responseOk; infer_instance

/-- How one attempt's outcome steers the checker's control flow. -/
inductive Classified
  /-- `response.ok`: log success and stop. -/
  | success
  /-- Non-2xx, non-retryable: call `handleFinalFailure` at once, no retry. -/
  | terminal
  /-- Timeout, transport error, or a retryable server status: the `catch`
      branch runs and the retry logic is consulted. -/
  | retryable
deriving DecidableEq

/-- Classification used by `keepUpCheck_worker.js` and the first unnamed
checker: a status is retryable iff `status >= 500 && status < 600`
(the thrown server error lands in the `catch` branch); timeouts and
transport errors are always retryable; everything else non-2xx is terminal. -/
def classifyRetries : FetchOutcome → Classified
  | .status s =>
    if responseOk s then .success
    else if 500 ≤ s ∧ s < 600 then .retryable
    else .terminal
  | .timeout => .retryable
  | .netError => .retryable

/-- Classification used by the second unnamed checker, whose server-error
test is just `status >= 500`. -/
def classifyAttempt : FetchOutcome → Classified
  | .status s =>
    if responseOk s then .success
    else if 500 ≤ s then .retryable
    else .terminal
  | .timeout => .retryable
  | .netError => .retryable

/-- Observable behaviour of one full `fetchWithTimeout` cascade for one URL:
how many `fetch` attempts ran, the sleeps inserted between consecutive
attempts (in order, in milliseconds), how many times `handleFinalFailure`
was invoked, and whether the cascade ended in logged success. -/
structure ProbeTrace where
  attempts : Nat
  delays : List Nat
  finalFailureCalls : Nat
  succeeded : Bool
deriving DecidableEq

/-- `fetchWithTimeout(env, url, retries)` of `keepUpCheck_worker.js` (and of
the first unnamed checker, whose retry logic is identical): on a retryable
outcome, if `retries <= MAX_RETRIES` it sleeps `RETRY_DELAY * 2 ** retries`
milliseconds and recurses with `retries + 1`, otherwise it calls
`handleFinalFailure`.  The entry point calls it with `retries = 1`. -/
def fetchWithTimeoutRetries (oracle : Nat → FetchOutcome) (retries : Nat) : ProbeTrace :=
  match classifyRetries (oracle retries) with
  | .success => ⟨1, [], 0, true⟩
  | .terminal => ⟨1, [], 1, false⟩
  | .retryable =>
    if h : retries ≤ MAX_RETRIES then
      let rest := fetchWithTimeoutRetries oracle (retries + 1)
      ⟨rest.attempts + 1, RETRY_DELAY * 2 ^ retries :: rest.delays,
       rest.finalFailureCalls, rest.succeeded⟩
    else ⟨1, [], 1, false⟩
termination_by MAX_RETRIES + 1 - retries
decreasing_by simp only [MAX_RETRIES] at *; omega

/-- `fetchWithTimeout(env, url, attempt)` of the second unnamed checker: on a
retryable outcome, if `attempt < MAX_ATTEMPT` it sleeps
`RETRY_DELAY * 2 ** attempt` milliseconds and recurses with `attempt + 1`,
otherwise it calls `handleFinalFailure`.  The entry point calls it with
`attempt = 1`. -/
def fetchWithTimeoutAttempt (oracle : Nat → FetchOutcome) (attempt : Nat) : ProbeTrace :=
  match classifyAttempt (oracle attempt) with
  | .success => ⟨1, [], 0, true⟩
  | .terminal => ⟨1, [], 1, false⟩
  | .retryable =>
    if h : attempt < MAX_ATTEMPT then
      let rest := fetchWithTimeoutAttempt oracle (attempt + 1)
      ⟨rest.attempts + 1, RETRY_DELAY * 2 ^ attempt :: rest.delays,
       rest.finalFailureCalls, rest.succeeded⟩
    else ⟨1, [], 1, false⟩
termination_by MAX_ATTEMPT - attempt
decreasing_by simp only [MAX_ATTEMPT] at *; omega

/-- An endpoint whose every attempt ends in a retryable outcome in the sense
of the spec: a timeout or a 5xx status. -/
def RetryableEveryAttempt (oracle : Nat → FetchOutcome) : Prop :=
  ∀ k, oracle k = .timeout ∨ ∃ s, oracle k = .status s ∧ 500 ≤ s ∧ s < 600

/-! ## Strings and the escalation predicate -/

/-- JavaScript `haystack.includes(needle)`: some suffix of the haystack has
the needle as a prefix.  URLs here are ASCII, so the code-unit view of the
JavaScript string and the character list of a Lean string agree. -/
def containsSubstr (haystack needle : String) : Bool :=
  (List.range (haystack.data.length + 1)).any
    (fun i => needle.data.isPrefixOf (haystack.data.drop i))

/-- The escalation gate of every `handleFinalFailure` variant:
`url.includes('galaxy')`. -/
def matchesGalaxy (url : String) : Bool := containsSubstr url "galaxy"

/-! ## The shared idempotency store

Cloudflare KV holds at most the single key `"flag"`; an entry carries its
value and its absolute expiration instant (seconds).  `get` observes the
entry only while the clock is before that instant — afterwards the key is
logically absent, which is exactly how `expirationTtl` behaves. -/

structure KVEntry where
  value : String
  expiresAt : Nat
deriving DecidableEq

/-- `KV.get("flag")` at time `now`: the stored value while unexpired,
otherwise `null`. -/
def kvGet (store : Option KVEntry) (now : Nat) : Option String :=
  match store with
  | some e => if now < e.expiresAt then some e.value else none
  | none => none

/-! ## The remediation trigger request -/

/-- The request `handleFinalFailure` sends to `env.DEPLOY_API_URL`: method,
target, the two headers, and the two fields of the `JSON.stringify`-ed body. -/
structure DeployRequest where
  method : String
  target : String
  contentType : String
  deployToken : String
  bodyReason : String
  bodyUrl : String
deriving DecidableEq

/-- The trigger request built by every `handleFinalFailure` variant:
`fetch(env.DEPLOY_API_URL, { method: 'POST', headers: ..., body: ... })`
with reason `galaxy_final_retry_failed` and the failing URL. -/
def mkDeployRequest (apiUrl token url : String) : DeployRequest :=
  { method := "POST"
    target := apiUrl
    contentType := "application/json"
    deployToken := token
    bodyReason := "galaxy_final_retry_failed"
    bodyUrl := url }

/-- Side effects of one `handleFinalFailure` invocation. -/
structure FFEffects where
  /-- Was `env.KV.get("flag")` read? -/
  kvRead : Bool
  /-- The trigger request sent to the deploy API, if any. -/
  request : Option DeployRequest
  /-- The `KV.put` performed, if any: key, value, `expirationTtl` seconds. -/
  kvWrite : Option (String × String × Nat)
deriving DecidableEq

/-- An invocation that returns without touching the network or the store. -/
def noEffects : FFEffects := ⟨false, none, none⟩

/-- `handleFinalFailure(url, env)` of the first unnamed checker, the variant
with the KV pre-check: bail out unless the URL is non-empty and contains
`galaxy`; bail out if `KV.get("flag") === "deployed"`; otherwise POST the
trigger and, only when the response is 2xx, `KV.put("flag", "deployed")`
with `expirationTtl: 60 * 60 * 3`.  `triggerStatus` is the deploy API's
response status; the function returns the effects and the store afterwards. -/
def handleFinalFailureKV (apiUrl token url : String) (store : Option KVEntry)
    (now : Nat) (triggerStatus : Nat) : FFEffects × Option KVEntry :=
  if url = "" then (noEffects, store)
  else if ¬ matchesGalaxy url then (noEffects, store)
  else if kvGet store now = some "deployed" then
    ({ noEffects with kvRead := true }, store)
  else
    let req := mkDeployRequest apiUrl token url
    if responseOk triggerStatus then
      (⟨true, some req, some ("flag", "deployed", 60 * 60 * 3)⟩,
       some ⟨"deployed", now + 60 * 60 * 3⟩)
    else
      (⟨true, some req, none⟩, store)

/-- `handleFinalFailure(url, env)` of `keepUpCheck_worker.js` and of the
second unnamed checker: no idempotency store at all — bail out unless the
URL contains `galaxy`, otherwise POST the trigger unconditionally (the
response status only affects logging). -/
def handleFinalFailureNoKV (apiUrl token url : String) : FFEffects :=
  if url = "" then noEffects
  else if ¬ matchesGalaxy url then noEffects
  else ⟨false, some (mkDeployRequest apiUrl token url), none⟩

/-! ## The bounded-concurrency task runner

`runWithConcurrency(tasks, limit)` keeps a mutable `executing` set of
in-flight promises.  Each loop iteration starts one task, registers a
`finally` handler that removes the settled promise from the set, and, when
the set has reached `limit`, awaits `Promise.race(executing)`; after the
loop it awaits `Promise.allSettled(executing)`.

We model its executions as a small-step relation.  A state records how many
tasks are still to be dispatched, how many are in flight (started and not
settled), and the runner's control position.  Steps the runner controls are
`dispatch` (start the next task), `startDrain` (enter the final
`allSettled` wait) and `finish` (return from it); `settle` is the
environment completing one in-flight task, possible at any time before the
runner returns.

The guard `inflight < limit` on `dispatch` encodes the blocking `await
Promise.race`: for `limit ≥ 1`, the loop body reaches its next iteration
only when the set is below the limit, because a settling promise's
`finally` handler (registered before the race observed it) removes it from
the set before the race's continuation resumes the loop. -/

inductive RPhase
  /-- Inside the `for` loop over the task list. -/
  | dispatching
  /-- After the loop, awaiting `Promise.allSettled(executing)`. -/
  | draining
  /-- `runWithConcurrency` has returned. -/
  | finished
deriving DecidableEq

structure RunnerState where
  pending : Nat
  inflight : Nat
  phase : RPhase
deriving DecidableEq

inductive RunnerStep (limit : Nat) : RunnerState → RunnerState → Prop
  /-- The loop starts the next task.  Possible only below the limit: at the
      limit, the runner is parked on `await Promise.race(executing)`. -/
  | dispatch {p i : Nat} (h : i < limit) :
      RunnerStep limit ⟨p + 1, i, .dispatching⟩ ⟨p, i + 1, .dispatching⟩
  /-- The environment settles one in-flight task; its `finally` handler
      removes it from the `executing` set. -/
  | settle {p i : Nat} {ph : RPhase} (h : ph ≠ .finished) :
      RunnerStep limit ⟨p, i + 1, ph⟩ ⟨p, i, ph⟩
  /-- The loop has dispatched every task; the runner moves to
      `await Promise.allSettled(executing)`. -/
  | startDrain {i : Nat} :
      RunnerStep limit ⟨0, i, .dispatching⟩ ⟨0, i, .draining⟩
  /-- `allSettled` resolves only once every remaining in-flight task has
      settled; the runner returns. -/
  | finish : RunnerStep limit ⟨0, 0, .draining⟩ ⟨0, 0, .finished⟩

/-- States reachable by a run over `n` tasks under concurrency `limit`. -/
def RunnerReachable (limit n : Nat) (s : RunnerState) : Prop :=
  Relation.ReflTransGen (RunnerStep limit) ⟨n, 0, .dispatching⟩ s

/-! ## UTF-8 encoding and decoding

`base64EncodeUtf8` starts with `new TextEncoder().encode(str)` and
`base64DecodeUtf8` ends with `new TextDecoder().decode(bytes)`.  These are
platform primitives; we embed them per the WHATWG encoding standard.  A
JavaScript string with no unpaired surrogates is a sequence of Unicode
scalar values — precisely what a Lean `String` holds — so the encoder maps
each scalar value to its 1–4 UTF-8 bytes and the decoder inverts it.
Malformed byte sequences decode to U+FFFD; the decoder's error recovery is
simplified (it matters only off the encoder's image). -/

/-- The UTF-8 bytes of one Unicode scalar value. -/
def utf8EncodeChar (c : Char) : List Nat :=
  let n := c.toNat
  if n < 0x80 then [n]
  else if n < 0x800 then [0xC0 + n / 0x40, 0x80 + n % 0x40]
  else if n < 0x10000 then
    [0xE0 + n / 0x1000, 0x80 + n / 0x40 % 0x40, 0x80 + n % 0x40]
  else
    [0xF0 + n / 0x40000, 0x80 + n / 0x1000 % 0x40,
     0x80 + n / 0x40 % 0x40, 0x80 + n % 0x40]

/-- `new TextEncoder().encode`, over the string's scalar values. -/
def utf8Encode : List Char → List Nat
  | [] => []
  | c :: cs => utf8EncodeChar c ++ utf8Encode cs

/-- A UTF-8 continuation byte. -/
def utf8Cont (b : Nat) : Bool := 0x80 ≤ b && b ≤ 0xBF

/-- WHATWG range for the first continuation byte after lead byte `b0` of a
three-byte sequence: tightened for `0xE0` (overlong) and `0xED`
(surrogates). -/
def utf8Cont3 (b0 b1 : Nat) : Bool :=
  if b0 = 0xE0 then 0xA0 ≤ b1 && b1 ≤ 0xBF
  else if b0 = 0xED then 0x80 ≤ b1 && b1 ≤ 0x9F
  else utf8Cont b1

/-- WHATWG range for the first continuation byte after lead byte `b0` of a
four-byte sequence: tightened for `0xF0` (overlong) and `0xF4` (beyond
U+10FFFF). -/
def utf8Cont4 (b0 b1 : Nat) : Bool :=
  if b0 = 0xF0 then 0x90 ≤ b1 && b1 ≤ 0xBF
  else if b0 = 0xF4 then 0x80 ≤ b1 && b1 ≤ 0x8F
  else utf8Cont b1

/-- U+FFFD, emitted by `TextDecoder` for malformed input. -/
def replacementChar : Char := Char.ofNat 0xFFFD

/-- One decoder step: given the lead byte and the bytes after it, the decoded
character and how many of those following bytes the sequence consumed.
A malformed sequence yields U+FFFD and consumes only the lead byte. -/
def utf8DecodeStep (b0 : Nat) (rest : List Nat) : Char × Nat :=
  if b0 ≤ 0x7F then (Char.ofNat b0, 0)
  else if b0 < 0xC2 then (replacementChar, 0)
  else if b0 ≤ 0xDF then
    match rest with
    | b1 :: _ =>
      if utf8Cont b1 then
        (Char.ofNat ((b0 - 0xC0) * 0x40 + (b1 - 0x80)), 1)
      else (replacementChar, 0)
    | [] => (replacementChar, 0)
  else if b0 ≤ 0xEF then
    match rest with
    | b1 :: b2 :: _ =>
      if utf8Cont3 b0 b1 && utf8Cont b2 then
        (Char.ofNat ((b0 - 0xE0) * 0x1000 + (b1 - 0x80) * 0x40 + (b2 - 0x80)), 2)
      else (replacementChar, 0)
    | _ => (replacementChar, 0)
  else if b0 ≤ 0xF4 then
    match rest with
    | b1 :: b2 :: b3 :: _ =>
      if utf8Cont4 b0 b1 && utf8Cont b2 && utf8Cont b3 then
        (Char.ofNat ((b0 - 0xF0) * 0x40000 + (b1 - 0x80) * 0x1000
            + (b2 - 0x80) * 0x40 + (b3 - 0x80)), 3)
      else (replacementChar, 0)
    | _ => (replacementChar, 0)
  else (replacementChar, 0)

/-- `new TextDecoder().decode`. -/
def utf8Decode : List Nat → List Char
  | [] => []
  | b0 :: rest =>
    (utf8DecodeStep b0 rest).1 :: utf8Decode (rest.drop (utf8DecodeStep b0 rest).2)
termination_by bs => bs.length
decreasing_by simp [List.length_drop]; omega

/-! ## Base64

The source turns the byte array into a "binary string" (`String.fromCharCode`
per byte) and applies `btoa`; the decoder applies `atob` and reads the code
units back (`charCodeAt`).  Both detours are the identity on bytes, so we
embed `btoa` / `atob` directly on byte lists.  `atob` throws
`InvalidCharacterError` on input that is not base64; the embedding returns
`none` there.  (`atob` also forgives missing padding; the encoder always
pads, so that case is irrelevant here and rejected.) -/

/-- The base64 alphabet, in value order. -/
def b64Alphabet : List Char :=
  "ABCDEFGHIJKLMNOPQRSTUVWXYZabcdefghijklmnopqrstuvwxyz0123456789+/".data

/-- The alphabet character of a 6-bit value. -/
def b64Char (i : Nat) : Char := b64Alphabet.getD i 'A'

/-- The 6-bit value of an alphabet character (`none` for `'='` and for any
character outside the alphabet). -/
def b64Val (c : Char) : Option Nat :=
  let i := b64Alphabet.indexOf c
  if i < 64 then some i else none

/-- `btoa` over bytes: three bytes map to four alphabet characters, a final
group of one or two bytes is padded with `'='`. -/
def b64EncodeBytes : List Nat → List Char
  | [] => []
  | [b0] => [b64Char (b0 / 4), b64Char (b0 % 4 * 16), '=', '=']
  | [b0, b1] =>
    [b64Char (b0 / 4), b64Char (b0 % 4 * 16 + b1 / 16), b64Char (b1 % 16 * 4), '=']
  | b0 :: b1 :: b2 :: bs =>
    b64Char (b0 / 4) :: b64Char (b0 % 4 * 16 + b1 / 16)
      :: b64Char (b1 % 16 * 4 + b2 / 64) :: b64Char (b2 % 64)
      :: b64EncodeBytes bs

/-- `atob` over strict (padded) base64: `none` models the thrown
`InvalidCharacterError`. -/
def b64DecodeBytes : List Char → Option (List Nat)
  | [] => some []
  | c0 :: c1 :: c2 :: c3 :: rest =>
    match b64Val c0, b64Val c1, b64Val c2, b64Val c3 with
    | some v0, some v1, some v2, some v3 =>
      (b64DecodeBytes rest).map
        (fun bs => (v0 * 4 + v1 / 16) :: (v1 % 16 * 16 + v2 / 4) :: (v2 % 4 * 64 + v3) :: bs)
    | some v0, some v1, some v2, none =>
      if c3 = '=' ∧ rest = [] then some [v0 * 4 + v1 / 16, v1 % 16 * 16 + v2 / 4]
      else none
    | some v0, some v1, none, none =>
      if c2 = '=' ∧ c3 = '=' ∧ rest = [] then some [v0 * 4 + v1 / 16]
      else none
    | _, _, _, _ => none
  | _ => none

/-- `base64EncodeUtf8(str)`: UTF-8 encode, then `btoa` of the binary string. -/
def base64EncodeUtf8 (str : String) : String :=
  String.mk (b64EncodeBytes (utf8Encode str.data))

/-- `base64DecodeUtf8(base64)`: strip every `'\n'`
(`base64.replace(/\n/g, "")`), `atob`, then UTF-8 decode the bytes.
`none` models the exception `atob` throws on non-base64 input. -/
def base64DecodeUtf8 (base64 : String) : Option String :=
  (b64DecodeBytes (base64.data.filter (· ≠ '\n'))).map
    (fun bs => String.mk (utf8Decode bs))

/-! ## The remediation service worker

The third source file exports a `fetch` handler: only `POST /deploy` is
served; the `X-Deploy-Token` header must equal `env.DEPLOY_TOKEN`;
an authorized request runs the core flow `run(env)` and answers
`200 {ok: true, result}` or, if `run` throws, `500 {ok: false, error}`.

`run(env)` throws if `GITHUB_TOKEN` or `GH_CONTENT_API_URL` is unset;
reads the idempotency flag and returns `skipped` while it says `deployed`;
otherwise reads the file from the GitHub content API, rewrites the
timestamp section, skips when nothing changed, else writes the file back
and only then puts `flag = "deployed"` with `expirationTtl = FLAG_TTL`.

External inputs (the GitHub responses, the KV content, the clock, and the
wall-clock-dependent result of `updateTimestampSection`) enter through
`ServiceEnv`. -/

structure ServiceEnv where
  /-- `env.DEPLOY_TOKEN`, the configured shared secret. -/
  deployToken : String
  /-- Is `env.GITHUB_TOKEN` set (non-empty)? -/
  hasGithubToken : Bool
  /-- Is `env.GH_CONTENT_API_URL` set (non-empty)? -/
  hasContentApiUrl : Bool
  /-- The content of `STATE_KV` under the key `"flag"`. -/
  kv : Option KVEntry
  /-- The current time, in the units of `KVEntry.expiresAt` (seconds). -/
  now : Nat
  /-- Status of the `getFile` GET against the content API. -/
  getFileStatus : Nat
  /-- `file.content` of a successful read: the file's base64 text. -/
  fileContentB64 : String
  /-- `updateTimestampSection(rawContent)`: the rewrite depends on the wall
      clock, so its result is an input. -/
  rewritten : String
  /-- Status of the `updateFile` PUT against the content API. -/
  updateFileStatus : Nat

/-- The value `run` resolves with when it does not throw. -/
inductive RunOk
  /-- `skipped: true, reason: "already deployed (within 3 hours)"`. -/
  | skippedDeployed
  /-- `skipped: true, reason: "content unchanged"`. -/
  | skippedUnchanged
  /-- `deployed: true`. -/
  | deployed
deriving DecidableEq

/-- Observable behaviour of one `run(env)` call: the resolved value or the
thrown message, whether the flag was read, whether the content API was
read and written, any flag put (key, value, TTL), and the store afterwards. -/
structure RunTrace where
  result : Except String RunOk
  flagRead : Bool
  contentRead : Bool
  contentWritten : Bool
  flagWrite : Option (String × String × Nat)
  kvAfter : Option KVEntry

/-- The core flow `run(env)` of the remediation service. -/
def run (e : ServiceEnv) : RunTrace :=
  if ¬ (e.hasGithubToken ∧ e.hasContentApiUrl) then
    ⟨.error "必要的环境变量未配置", false, false, false, none, e.kv⟩
  else if kvGet e.kv e.now = some "deployed" then
    ⟨.ok .skippedDeployed, true, false, false, none, e.kv⟩
  else if ¬ responseOk e.getFileStatus then
    ⟨.error ("读取文件失败: " ++ toString e.getFileStatus),
     true, true, false, none, e.kv⟩
  else
    match base64DecodeUtf8 e.fileContentB64 with
    | none =>
      -- `atob` throws on a malformed `file.content`; `run` propagates it.
      ⟨.error "InvalidCharacterError", true, true, false, none, e.kv⟩
    | some rawContent =>
      if e.rewritten = rawContent then
        ⟨.ok .skippedUnchanged, true, true, false, none, e.kv⟩
      else if ¬ responseOk e.updateFileStatus then
        ⟨.error ("提交失败: " ++ toString e.updateFileStatus),
         true, true, false, none, e.kv⟩
      else
        ⟨.ok .deployed, true, true, true, some ("flag", "deployed", FLAG_TTL),
         some ⟨"deployed", e.now + FLAG_TTL⟩⟩

/-- An HTTP request as seen by the service's `fetch` handler. -/
structure ServiceReq where
  path : String
  method : String
  /-- `req.headers.get("X-Deploy-Token")`: `none` when the header is absent. -/
  deployTokenHeader : Option String
deriving DecidableEq

/-- The body of a service response. -/
inductive RespBody
  /-- `ok: true, result: r` — the 200 success envelope. -/
  | jsonOkResult (r : RunOk)
  /-- `ok: false, error: msg` — the 401 and 500 envelopes. -/
  | jsonError (msg : String)
  /-- The plain `"Not Found"` body. -/
  | notFound
deriving DecidableEq

structure ServiceResp where
  status : Nat
  body : RespBody
deriving DecidableEq

/-- The service's exported `fetch` handler: routing, token check, and the
wrapping of `run`'s result or exception.  Besides the response it returns
the `run` trace when `run` was entered (`none` means `run` never ran, so
neither the flag read nor any content action happened). -/
def serviceFetch (e : ServiceEnv) (req : ServiceReq) : ServiceResp × Option RunTrace :=
  if req.path = "/deploy" ∧ req.method = "POST" then
    match req.deployTokenHeader with
    | none => (⟨401, .jsonError "Unauthorized"⟩, none)
    | some t =>
      if t = "" ∨ t ≠ e.deployToken then (⟨401, .jsonError "Unauthorized"⟩, none)
      else
        let tr := run e
        match tr.result with
        | .ok r => (⟨200, .jsonOkResult r⟩, some tr)
        | .error m => (⟨500, .jsonError m⟩, some tr)
  else (⟨404, .notFound⟩, none)

/-! ## Lemmas about the probe executor -/

theorem classifyRetries_of_retryable {oracle : Nat → FetchOutcome}
    (h : RetryableEveryAttempt oracle) (k : Nat) :
    classifyRetries (oracle k) = .retryable := by
  rcases h k with hk | ⟨s, hk, h5, h6⟩
  · rw [hk]; rfl
  · rw [hk]
    show (if responseOk s then Classified.success
      else if 500 ≤ s ∧ s < 600 then .retryable else .terminal) = .retryable
    rw [if_neg (by unfold responseOk; omega), if_pos ⟨h5, h6⟩]

theorem classifyAttempt_of_retryable {oracle : Nat → FetchOutcome}
    (h : RetryableEveryAttempt oracle) (k : Nat) :
    classifyAttempt (oracle k) = .retryable := by
  rcases h k with hk | ⟨s, hk, h5, _⟩
  · rw [hk]; rfl
  · rw [hk]
    show (if responseOk s then Classified.success
      else if 500 ≤ s then .retryable else .terminal) = .retryable
    rw [if_neg (by unfold responseOk; omega), if_pos h5]

theorem fetchWithTimeoutRetries_retryable {oracle : Nat → FetchOutcome}
    (h : RetryableEveryAttempt oracle) (r : Nat) (hr : r ≤ MAX_RETRIES) :
    fetchWithTimeoutRetries oracle r =
      ⟨(fetchWithTimeoutRetries oracle (r + 1)).attempts + 1,
       RETRY_DELAY * 2 ^ r :: (fetchWithTimeoutRetries oracle (r + 1)).delays,
       (fetchWithTimeoutRetries oracle (r + 1)).finalFailureCalls,
       (fetchWithTimeoutRetries oracle (r + 1)).succeeded⟩ := by
  rw [fetchWithTimeoutRetries, classifyRetries_of_retryable h]
  simp [hr]

theorem fetchWithTimeoutRetries_exhausted {oracle : Nat → FetchOutcome}
    (h : RetryableEveryAttempt oracle) (r : Nat) (hr : ¬ r ≤ MAX_RETRIES) :
    fetchWithTimeoutRetries oracle r = ⟨1, [], 1, false⟩ := by
  rw [fetchWithTimeoutRetries, classifyRetries_of_retryable h]
  simp [hr]

theorem fetchWithTimeoutAttempt_retryable {oracle : Nat → FetchOutcome}
    (h : RetryableEveryAttempt oracle) (r : Nat) (hr : r < MAX_ATTEMPT) :
    fetchWithTimeoutAttempt oracle r =
      ⟨(fetchWithTimeoutAttempt oracle (r + 1)).attempts + 1,
       RETRY_DELAY * 2 ^ r :: (fetchWithTimeoutAttempt oracle (r + 1)).delays,
       (fetchWithTimeoutAttempt oracle (r + 1)).finalFailureCalls,
       (fetchWithTimeoutAttempt oracle (r + 1)).succeeded⟩ := by
  rw [fetchWithTimeoutAttempt, classifyAttempt_of_retryable h]
  simp [hr]

theorem fetchWithTimeoutAttempt_exhausted {oracle : Nat → FetchOutcome}
    (h : RetryableEveryAttempt oracle) (r : Nat) (hr : ¬ r < MAX_ATTEMPT) :
    fetchWithTimeoutAttempt oracle r = ⟨1, [], 1, false⟩ := by
  rw [fetchWithTimeoutAttempt, classifyAttempt_of_retryable h]
  simp [hr]

/-! ## Claims about the probe executor -/

/-- C1 (counterexample): the claim says an endpoint that fails retryably on
every attempt is probed exactly `maxAttempts = 3` times, citing among its
sources the `retries <= MAX_RETRIES` executors.  Against a constant-500
endpoint, `fetchWithTimeout` of `keepUpCheck_worker.js` (and of the first
unnamed checker) performs 4 attempts — the initial attempt plus
`MAX_RETRIES` retries — not 3. -/
theorem fetchWithTimeout_attempts_counterexample :
    (fetchWithTimeoutRetries (fun _ => .status 500) 1).attempts = 4 ∧
    (fetchWithTimeoutRetries (fun _ => .status 500) 1).attempts ≠ 3 := by
  have h : (fetchWithTimeoutRetries (fun _ => .status 500) 1).attempts = 4 := by
    simp [fetchWithTimeoutRetries, classifyRetries, responseOk, MAX_RETRIES, RETRY_DELAY]
  exact ⟨h, by rw [h]; omega⟩

/-- C1 (amended): for an endpoint whose every attempt ends retryably
(timeout or 5xx), the `attempt < MAX_ATTEMPT` executor performs exactly
`MAX_ATTEMPT = 3` attempts with backoff sleeps `RETRY_DELAY * 2 ^ attempt`
(1000 ms, then 2000 ms), while the `retries <= MAX_RETRIES` executors
perform `MAX_RETRIES + 1 = 4` attempts with sleeps 1000, 2000 and 4000 ms;
each terminates as a final failure invoking `handleFinalFailure` exactly
once. -/
theorem fetchWithTimeout_exhaustion (oracle : Nat → FetchOutcome)
    (h : RetryableEveryAttempt oracle) :
    fetchWithTimeoutAttempt oracle 1 = ⟨3, [1000, 2000], 1, false⟩ ∧
    fetchWithTimeoutRetries oracle 1 = ⟨4, [1000, 2000, 4000], 1, false⟩ := by
  constructor
  · rw [fetchWithTimeoutAttempt_retryable h 1 (by decide),
        fetchWithTimeoutAttempt_retryable h 2 (by decide),
        fetchWithTimeoutAttempt_exhausted h 3 (by decide)]
    simp [RETRY_DELAY]
  · rw [fetchWithTimeoutRetries_retryable h 1 (by decide),
        fetchWithTimeoutRetries_retryable h 2 (by decide),
        fetchWithTimeoutRetries_retryable h 3 (by decide),
        fetchWithTimeoutRetries_exhausted h 4 (by decide)]
    simp [RETRY_DELAY]

/-- C1 (witness): the amended claim at the constant-500 endpoint. -/
theorem fetchWithTimeout_exhaustion_witness :
    fetchWithTimeoutAttempt (fun _ => .status 500) 1 = ⟨3, [1000, 2000], 1, false⟩ ∧
    fetchWithTimeoutRetries (fun _ => .status 500) 1 = ⟨4, [1000, 2000, 4000], 1, false⟩ :=
  fetchWithTimeout_exhaustion (fun _ => .status 500)
    (fun _ => Or.inr ⟨500, rfl, by omega, by omega⟩)

/-- C4: a response whose status is neither 2xx nor 5xx (any valid HTTP
status below 600, e.g. 404) ends the probe after exactly one attempt, with
no backoff sleep and no retry, and `handleFinalFailure` is invoked at once,
in both executor variants. -/
theorem non5xx_terminal (oracle : Nat → FetchOutcome) (s : Nat)
    (h1 : oracle 1 = .status s) (h2 : ¬ responseOk s)
    (h5 : ¬ (500 ≤ s ∧ s < 600)) (hv : s < 600) :
    fetchWithTimeoutRetries oracle 1 = ⟨1, [], 1, false⟩ ∧
    fetchWithTimeoutAttempt oracle 1 = ⟨1, [], 1, false⟩ := by
  constructor
  · rw [fetchWithTimeoutRetries, h1]
    show (match (if responseOk s then Classified.success
        else if 500 ≤ s ∧ s < 600 then .retryable else .terminal) with
      | Classified.success => (⟨1, [], 0, true⟩ : ProbeTrace)
      | Classified.terminal => ⟨1, [], 1, false⟩
      | Classified.retryable => _) = ⟨1, [], 1, false⟩
    rw [if_neg h2, if_neg h5]
  · rw [fetchWithTimeoutAttempt, h1]
    show (match (if responseOk s then Classified.success
        else if 500 ≤ s then .retryable else .terminal) with
      | Classified.success => (⟨1, [], 0, true⟩ : ProbeTrace)
      | Classified.terminal => ⟨1, [], 1, false⟩
      | Classified.retryable => _) = ⟨1, [], 1, false⟩
    rw [if_neg h2, if_neg (by unfold responseOk at h2; omega)]

/-- C4 (witness): a constant-404 endpoint. -/
theorem non5xx_terminal_witness :
    fetchWithTimeoutRetries (fun _ => .status 404) 1 = ⟨1, [], 1, false⟩ ∧
    fetchWithTimeoutAttempt (fun _ => .status 404) 1 = ⟨1, [], 1, false⟩ :=
  non5xx_terminal (fun _ => .status 404) 404 rfl
    (by unfold responseOk; omega) (by omega) (by omega)

/-! ## Lemmas about the final-failure handlers and the service -/

/-- Branch analysis of the KV-checking handler: either no trigger request is
sent, or the sent request is exactly `mkDeployRequest apiUrl token url`. -/
theorem handleFinalFailureKV_request (apiUrl token url : String)
    (store : Option KVEntry) (now ts : Nat) :
    (handleFinalFailureKV apiUrl token url store now ts).1.request = none ∨
    (handleFinalFailureKV apiUrl token url store now ts).1.request
      = some (mkDeployRequest apiUrl token url) := by
  unfold handleFinalFailureKV
  split
  · exact Or.inl rfl
  · split
    · exact Or.inl rfl
    · split
      · exact Or.inl rfl
      · split
        · exact Or.inr rfl
        · exact Or.inr rfl

/-- Branch analysis of the KV-free handler: same dichotomy. -/
theorem handleFinalFailureNoKV_request (apiUrl token url : String) :
    (handleFinalFailureNoKV apiUrl token url).request = none ∨
    (handleFinalFailureNoKV apiUrl token url).request
      = some (mkDeployRequest apiUrl token url) := by
  unfold handleFinalFailureNoKV
  split
  · exact Or.inl rfl
  · split
    · exact Or.inl rfl
    · exact Or.inr rfl

/-- An authorized `POST /deploy` forwards `run`'s outcome: an `ok` result
becomes a 200, a thrown message becomes a 500. -/
theorem serviceFetch_authorized (e : ServiceEnv) (req : ServiceReq) (t : String)
    (hpath : req.path = "/deploy") (hmethod : req.method = "POST")
    (hhdr : req.deployTokenHeader = some t) (ht : t ≠ "") (htok : t = e.deployToken) :
    serviceFetch e req =
      match (run e).result with
      | .ok r => (⟨200, .jsonOkResult r⟩, some (run e))
      | .error m => (⟨500, .jsonError m⟩, some (run e)) := by
  have hneg : ¬ (t = "" ∨ t ≠ e.deployToken) := by
    push_neg
    exact ⟨ht, htok⟩
  unfold serviceFetch
  rw [if_pos ⟨hpath, hmethod⟩, hhdr]
  simp only []
  rw [if_neg hneg]

/-! ## Claims about escalation gating and idempotency -/

/-- C5: a terminal failure whose URL does not contain the escalation keyword
`galaxy` makes the final-failure handler return with no trigger request and
no idempotency-store access or write, in every handler variant. -/
theorem no_galaxy_no_escalation (apiUrl token url : String)
    (store : Option KVEntry) (now ts : Nat) (h : matchesGalaxy url = false) :
    handleFinalFailureKV apiUrl token url store now ts = (noEffects, store) ∧
    handleFinalFailureNoKV apiUrl token url = noEffects := by
  unfold handleFinalFailureKV handleFinalFailureNoKV
  simp [h]

/-- C5 (witness): a non-matching URL. -/
theorem no_galaxy_no_escalation_witness :
    handleFinalFailureKV "https://deploy.example/" "tok" "https://ok.test/"
        none 0 503 = (noEffects, none) ∧
    handleFinalFailureNoKV "https://deploy.example/" "tok" "https://ok.test/"
        = noEffects :=
  no_galaxy_no_escalation "https://deploy.example/" "tok" "https://ok.test/"
    none 0 503 (by decide)

/-- C2: while the shared flag `"flag"` holds `"deployed"` and is unexpired,
a terminal failure does not make the (KV-checking) client send the trigger
request and leaves the store untouched; and an authorized call of the
remediation service in that state answers 200 with the `skipped` result
and performs no remediation action — no content read, no content write,
no flag write. -/
theorem idempotent_suppression
    (apiUrl token url : String) (store : Option KVEntry) (now ts : Nat)
    (e : ServiceEnv) (req : ServiceReq) (t : String)
    (hflag : kvGet store now = some "deployed")
    (heflag : kvGet e.kv e.now = some "deployed")
    (hc1 : e.hasGithubToken = true) (hc2 : e.hasContentApiUrl = true)
    (hpath : req.path = "/deploy") (hmethod : req.method = "POST")
    (hhdr : req.deployTokenHeader = some t) (ht : t ≠ "") (htok : t = e.deployToken) :
    (handleFinalFailureKV apiUrl token url store now ts).1.request = none ∧
    (handleFinalFailureKV apiUrl token url store now ts).1.kvWrite = none ∧
    (handleFinalFailureKV apiUrl token url store now ts).2 = store ∧
    serviceFetch e req = (⟨200, .jsonOkResult .skippedDeployed⟩, some (run e)) ∧
    (run e).contentRead = false ∧ (run e).contentWritten = false ∧
    (run e).flagWrite = none ∧ (run e).kvAfter = e.kv := by
  have hrun : run e = ⟨.ok .skippedDeployed, true, false, false, none, e.kv⟩ := by
    unfold run
    rw [if_neg (by simp [hc1, hc2]), if_pos heflag]
  have hclient : handleFinalFailureKV apiUrl token url store now ts
      = (if url = "" then (noEffects, store)
         else if ¬ matchesGalaxy url then (noEffects, store)
         else ({ noEffects with kvRead := true }, store)) := by
    unfold handleFinalFailureKV
    by_cases h0 : url = ""
    · simp [h0]
    · by_cases hg : matchesGalaxy url
      · simp [h0, hg, hflag]
      · simp [h0, hg]
  have hreq : (handleFinalFailureKV apiUrl token url store now ts).1.request = none ∧
      (handleFinalFailureKV apiUrl token url store now ts).1.kvWrite = none ∧
      (handleFinalFailureKV apiUrl token url store now ts).2 = store := by
    rw [hclient]
    split
    · exact ⟨rfl, rfl, rfl⟩
    · split
      · exact ⟨rfl, rfl, rfl⟩
      · exact ⟨rfl, rfl, rfl⟩
  refine ⟨hreq.1, hreq.2.1, hreq.2.2, ?_, ?_, ?_, ?_, ?_⟩
  · rw [serviceFetch_authorized e req t hpath hmethod hhdr ht htok, hrun]
  · rw [hrun]
  · rw [hrun]
  · rw [hrun]
  · rw [hrun]

/-- C2 (witness): flag `"deployed"` written at expiry 10800, observed at
time 0, for a matching URL and an authorized service call. -/
theorem idempotent_suppression_witness :
    (handleFinalFailureKV "https://deploy.example/" "tok" "https://galaxy.test/"
        (some ⟨"deployed", 10800⟩) 0 200).1.request = none ∧
    (handleFinalFailureKV "https://deploy.example/" "tok" "https://galaxy.test/"
        (some ⟨"deployed", 10800⟩) 0 200).1.kvWrite = none ∧
    (handleFinalFailureKV "https://deploy.example/" "tok" "https://galaxy.test/"
        (some ⟨"deployed", 10800⟩) 0 200).2 = some ⟨"deployed", 10800⟩ ∧
    serviceFetch
        ⟨"secret", true, true, some ⟨"deployed", 10800⟩, 0, 200, "", "", 200⟩
        ⟨"/deploy", "POST", some "secret"⟩
      = (⟨200, .jsonOkResult .skippedDeployed⟩,
         some (run ⟨"secret", true, true, some ⟨"deployed", 10800⟩, 0, 200, "", "", 200⟩)) ∧
    (run ⟨"secret", true, true, some ⟨"deployed", 10800⟩, 0, 200, "", "", 200⟩).contentRead = false ∧
    (run ⟨"secret", true, true, some ⟨"deployed", 10800⟩, 0, 200, "", "", 200⟩).contentWritten = false ∧
    (run ⟨"secret", true, true, some ⟨"deployed", 10800⟩, 0, 200, "", "", 200⟩).flagWrite = none ∧
    (run ⟨"secret", true, true, some ⟨"deployed", 10800⟩, 0, 200, "", "", 200⟩).kvAfter
      = some ⟨"deployed", 10800⟩ :=
  idempotent_suppression "https://deploy.example/" "tok" "https://galaxy.test/"
    (some ⟨"deployed", 10800⟩) 0 200
    ⟨"secret", true, true, some ⟨"deployed", 10800⟩, 0, 200, "", "", 200⟩
    ⟨"/deploy", "POST", some "secret"⟩ "secret"
    (by decide) (by decide) rfl rfl rfl rfl rfl (by decide) rfl

/-- C3: with the flag absent or expired, a matching terminal failure makes
the KV-checking client send the trigger request (exactly the one request of
this `handleFinalFailure` call); on a 2xx trigger response — and only then —
the flag is written with value `"deployed"` and TTL 10800 seconds, while a
non-2xx response leaves the store unchanged.  The remediation service's own
success path writes the same record with the same TTL. -/
theorem trigger_and_mark (apiUrl token url : String) (store : Option KVEntry)
    (now ts : Nat) (e : ServiceEnv) (raw : String)
    (hurl : url ≠ "") (hg : matchesGalaxy url = true)
    (hflag : kvGet store now = none)
    (hc1 : e.hasGithubToken = true) (hc2 : e.hasContentApiUrl = true)
    (heflag : kvGet e.kv e.now = none) (hgf : responseOk e.getFileStatus)
    (hdec : base64DecodeUtf8 e.fileContentB64 = some raw)
    (hch : e.rewritten ≠ raw) (hup : responseOk e.updateFileStatus) :
    (handleFinalFailureKV apiUrl token url store now ts).1.request
      = some (mkDeployRequest apiUrl token url) ∧
    (responseOk ts →
      (handleFinalFailureKV apiUrl token url store now ts).1.kvWrite
          = some ("flag", "deployed", 10800) ∧
      (handleFinalFailureKV apiUrl token url store now ts).2
          = some ⟨"deployed", now + 10800⟩) ∧
    (¬ responseOk ts →
      (handleFinalFailureKV apiUrl token url store now ts).1.kvWrite = none ∧
      (handleFinalFailureKV apiUrl token url store now ts).2 = store) ∧
    (run e).flagWrite = some ("flag", "deployed", 10800) ∧
    (run e).kvAfter = some ⟨"deployed", e.now + 10800⟩ := by
  have hne : ¬ kvGet store now = some "deployed" := by rw [hflag]; simp
  have hclient : handleFinalFailureKV apiUrl token url store now ts
      = (if responseOk ts then
          (⟨true, some (mkDeployRequest apiUrl token url),
            some ("flag", "deployed", 60 * 60 * 3)⟩,
           some ⟨"deployed", now + 60 * 60 * 3⟩)
         else
          (⟨true, some (mkDeployRequest apiUrl token url), none⟩, store)) := by
    unfold handleFinalFailureKV
    rw [if_neg hurl, if_neg (by rw [hg]; simp), if_neg hne]
  have hrun : run e = ⟨.ok .deployed, true, true, true,
      some ("flag", "deployed", FLAG_TTL), some ⟨"deployed", e.now + FLAG_TTL⟩⟩ := by
    unfold run
    rw [if_neg (by simp [hc1, hc2]), if_neg (by rw [heflag]; simp),
        if_neg (by simp [hgf]), hdec]
    simp only []
    rw [if_neg hch, if_neg (by simp [hup])]
  refine ⟨?_, ?_, ?_, ?_, ?_⟩
  · rw [hclient]
    split
    · rfl
    · rfl
  · intro hok
    rw [hclient, if_pos hok]
    exact ⟨rfl, rfl⟩
  · intro hok
    rw [hclient, if_neg hok]
    exact ⟨rfl, rfl⟩
  · rw [hrun]
    rfl
  · rw [hrun]
    rfl

/-- C3 (witness): flag absent, matching URL, 2xx trigger response, and a
service environment whose content action succeeds and changes the file. -/
theorem trigger_and_mark_witness :
    (handleFinalFailureKV "https://deploy.example/" "tok" "https://galaxy.test/"
        none 7 200).1.request
      = some (mkDeployRequest "https://deploy.example/" "tok" "https://galaxy.test/") ∧
    (responseOk 200 →
      (handleFinalFailureKV "https://deploy.example/" "tok" "https://galaxy.test/"
          none 7 200).1.kvWrite = some ("flag", "deployed", 10800) ∧
      (handleFinalFailureKV "https://deploy.example/" "tok" "https://galaxy.test/"
          none 7 200).2 = some ⟨"deployed", 7 + 10800⟩) ∧
    (¬ responseOk 200 →
      (handleFinalFailureKV "https://deploy.example/" "tok" "https://galaxy.test/"
          none 7 200).1.kvWrite = none ∧
      (handleFinalFailureKV "https://deploy.example/" "tok" "https://galaxy.test/"
          none 7 200).2 = none) ∧
    (run ⟨"secret", true, true, none, 7, 200, "", "changed", 200⟩).flagWrite
      = some ("flag", "deployed", 10800) ∧
    (run ⟨"secret", true, true, none, 7, 200, "", "changed", 200⟩).kvAfter
      = some ⟨"deployed", 7 + 10800⟩ :=
  trigger_and_mark "https://deploy.example/" "tok" "https://galaxy.test/"
    none 7 200 ⟨"secret", true, true, none, 7, 200, "", "changed", 200⟩
    "" (by decide) (by decide) rfl rfl rfl rfl (by decide)
    (by simp [base64DecodeUtf8, b64DecodeBytes, utf8Decode]) (by decide) (by decide)

/-- C6 (counterexample): the claim pins the trigger body's `reason` field to
`"final_retry_failed"`, but every handler variant sends
`"galaxy_final_retry_failed"`: here, the request the KV-checking handler
issues for a failing matching endpoint. -/
theorem deploy_reason_counterexample :
    (handleFinalFailureKV "https://deploy.example/" "tok" "https://galaxy.test/"
        none 0 200).1.request.map DeployRequest.bodyReason
      = some "galaxy_final_retry_failed" ∧
    "galaxy_final_retry_failed" ≠ "final_retry_failed" := by
  constructor
  · decide
  · decide

/-- C6 (amended): every trigger request any handler variant issues is a POST
to the configured deploy endpoint with `Content-Type: application/json` and
the shared-secret `X-Deploy-Token` header, whose JSON body holds exactly
`reason = "galaxy_final_retry_failed"` and the failing endpoint's URL. -/
theorem deploy_request_shape (apiUrl token url : String) (store : Option KVEntry)
    (now ts : Nat) (r : DeployRequest)
    (h : (handleFinalFailureKV apiUrl token url store now ts).1.request = some r ∨
         (handleFinalFailureNoKV apiUrl token url).request = some r) :
    r.method = "POST" ∧ r.target = apiUrl ∧ r.contentType = "application/json" ∧
    r.deployToken = token ∧ r.bodyReason = "galaxy_final_retry_failed" ∧
    r.bodyUrl = url := by
  have hr : r = mkDeployRequest apiUrl token url := by
    rcases h with h | h
    · rcases handleFinalFailureKV_request apiUrl token url store now ts with h2 | h2
      · rw [h2] at h; cases h
      · rw [h2] at h; injection h with h; exact h.symm
    · rcases handleFinalFailureNoKV_request apiUrl token url with h2 | h2
      · rw [h2] at h; cases h
      · rw [h2] at h; injection h with h; exact h.symm
  subst hr
  exact ⟨rfl, rfl, rfl, rfl, rfl, rfl⟩

/-- C6 (witness): the amended shape at a concrete issued request. -/
theorem deploy_request_shape_witness :
    (mkDeployRequest "https://deploy.example/" "tok" "https://galaxy.test/").method
        = "POST" ∧
    (mkDeployRequest "https://deploy.example/" "tok" "https://galaxy.test/").target
        = "https://deploy.example/" ∧
    (mkDeployRequest "https://deploy.example/" "tok" "https://galaxy.test/").contentType
        = "application/json" ∧
    (mkDeployRequest "https://deploy.example/" "tok" "https://galaxy.test/").deployToken
        = "tok" ∧
    (mkDeployRequest "https://deploy.example/" "tok" "https://galaxy.test/").bodyReason
        = "galaxy_final_retry_failed" ∧
    (mkDeployRequest "https://deploy.example/" "tok" "https://galaxy.test/").bodyUrl
        = "https://galaxy.test/" :=
  deploy_request_shape "https://deploy.example/" "tok" "https://galaxy.test/"
    none 0 200 _ (Or.inl (by decide))

/-! ## Claims about the task runner -/

/-- C7: in every execution of `runWithConcurrency` (every reachable state of
its step relation, under any interleaving of task completions), the number
of in-flight probe tasks never exceeds the concurrency limit, and the
runner is finished only once every dispatched task has settled and no task
is left undispatched.  The model is faithful for `limit ≥ 1` (the
configured value is `CONCURRENCY = 3`). -/
theorem runWithConcurrency_bound (limit n : Nat) (s : RunnerState)
    (_hl : 0 < limit) (hs : RunnerReachable limit n s) :
    s.inflight ≤ limit ∧
    (s.phase = .finished → s.inflight = 0 ∧ s.pending = 0) := by
  induction hs with
  | refl => exact ⟨Nat.zero_le _, fun h => RPhase.noConfusion h⟩
  | tail _ hstep ih =>
    cases hstep with
    | dispatch h => exact ⟨h, fun hf => RPhase.noConfusion hf⟩
    | @settle p i ph h =>
      have h1 : i + 1 ≤ limit := ih.1
      exact ⟨show i ≤ limit by omega, fun hf => absurd hf h⟩
    | startDrain => exact ⟨ih.1, fun hf => RPhase.noConfusion hf⟩
    | finish => exact ⟨Nat.zero_le _, fun _ => ⟨rfl, rfl⟩⟩

/-- C7 (witness): after two dispatches out of two tasks under
`CONCURRENCY = 3`, the bound holds at the reached state. -/
theorem runWithConcurrency_bound_witness :
    (⟨0, 2, .dispatching⟩ : RunnerState).inflight ≤ CONCURRENCY ∧
    ((⟨0, 2, .dispatching⟩ : RunnerState).phase = .finished →
      (⟨0, 2, .dispatching⟩ : RunnerState).inflight = 0 ∧
      (⟨0, 2, .dispatching⟩ : RunnerState).pending = 0) := by
  have s1 : RunnerStep CONCURRENCY ⟨2, 0, .dispatching⟩ ⟨1, 1, .dispatching⟩ :=
    RunnerStep.dispatch (by decide)
  have s2 : RunnerStep CONCURRENCY ⟨1, 1, .dispatching⟩ ⟨0, 2, .dispatching⟩ :=
    RunnerStep.dispatch (by decide)
  exact runWithConcurrency_bound CONCURRENCY 2 ⟨0, 2, .dispatching⟩ (by decide)
    (Relation.ReflTransGen.tail (Relation.ReflTransGen.tail Relation.ReflTransGen.refl s1) s2)

/-! ## Claims about the remediation service -/

/-- C8: the remediation service answers 404 to every request that is not a
`POST` to `/deploy`; and a `POST /deploy` whose `X-Deploy-Token` header is
missing or differs from the configured secret gets
`401 ok: false, error: "Unauthorized"` with no further processing —
`run` never starts, so neither the idempotency flag read nor any
remediation action happens. -/
theorem deploy_auth_routing (e : ServiceEnv) (req : ServiceReq) :
    (¬ (req.path = "/deploy" ∧ req.method = "POST") →
      serviceFetch e req = (⟨404, .notFound⟩, none)) ∧
    ((req.path = "/deploy" ∧ req.method = "POST") →
      (∀ t, req.deployTokenHeader = some t → t ≠ e.deployToken) →
      serviceFetch e req = (⟨401, .jsonError "Unauthorized"⟩, none)) := by
  constructor
  · intro h
    unfold serviceFetch
    rw [if_neg h]
  · intro h hdr
    unfold serviceFetch
    rw [if_pos h]
    cases hh : req.deployTokenHeader with
    | none => rfl
    | some t =>
      simp only []
      rw [if_pos (Or.inr (hdr t hh))]

/-- C8 (witness): a `POST /deploy` carrying a wrong token is refused with
401 and no processing; the instance is drawn from the routing theorem. -/
theorem deploy_auth_routing_witness :
    serviceFetch ⟨"secret", true, true, none, 0, 200, "", "", 200⟩
      ⟨"/deploy", "POST", some "wrong"⟩ = (⟨401, .jsonError "Unauthorized"⟩, none) :=
  (deploy_auth_routing ⟨"secret", true, true, none, 0, 200, "", "", 200⟩
      ⟨"/deploy", "POST", some "wrong"⟩).2
    ⟨rfl, rfl⟩ (fun t ht => by cases ht; decide)

/-- C9: when the remediation action fails (the content read or the content
update answers non-2xx) or required configuration is missing, an authorized
`POST /deploy` answers `500 ok: false, error: message`, and the idempotency
flag is not written: the shared store is exactly as before. -/
theorem remediation_error_no_flag (e : ServiceEnv) (req : ServiceReq) (t : String)
    (hpath : req.path = "/deploy") (hmethod : req.method = "POST")
    (hhdr : req.deployTokenHeader = some t) (ht : t ≠ "") (htok : t = e.deployToken)
    (hfail :
      (¬ e.hasGithubToken = true ∨ ¬ e.hasContentApiUrl = true) ∨
      (kvGet e.kv e.now ≠ some "deployed" ∧ ¬ responseOk e.getFileStatus) ∨
      (kvGet e.kv e.now ≠ some "deployed" ∧ responseOk e.getFileStatus ∧
        (∃ raw, base64DecodeUtf8 e.fileContentB64 = some raw ∧ e.rewritten ≠ raw) ∧
        ¬ responseOk e.updateFileStatus)) :
    (∃ m, (run e).result = .error m ∧
      serviceFetch e req = (⟨500, .jsonError m⟩, some (run e))) ∧
    (run e).flagWrite = none ∧ (run e).kvAfter = e.kv := by
  have herr : ∃ m, (run e).result = .error m ∧
      (run e).flagWrite = none ∧ (run e).kvAfter = e.kv := by
    by_cases hcfg : e.hasGithubToken = true ∧ e.hasContentApiUrl = true
    · rcases hfail with h | ⟨hfl, hgf⟩ | ⟨hfl, hgf, ⟨raw, hdec, hch⟩, hup⟩
      · tauto
      · refine ⟨"读取文件失败: " ++ toString e.getFileStatus, ?_⟩
        unfold run
        rw [if_neg (by simp [hcfg.1, hcfg.2]), if_neg hfl, if_pos hgf]
        exact ⟨rfl, rfl, rfl⟩
      · refine ⟨"提交失败: " ++ toString e.updateFileStatus, ?_⟩
        unfold run
        rw [if_neg (by simp [hcfg.1, hcfg.2]), if_neg hfl,
            if_neg (by simp [hgf]), hdec]
        simp only []
        rw [if_neg hch, if_pos hup]
        exact ⟨rfl, rfl, rfl⟩
    · refine ⟨"必要的环境变量未配置", ?_⟩
      unfold run
      rw [if_pos hcfg]
      exact ⟨rfl, rfl, rfl⟩
  rcases herr with ⟨m, hm, hw, ha⟩
  refine ⟨⟨m, hm, ?_⟩, hw, ha⟩
  rw [serviceFetch_authorized e req t hpath hmethod hhdr ht htok, hm]

/-- C9 (witness): an authorized call against a service whose content read
answers 503 — the response is the 500 envelope and the flag row of the
store is untouched. -/
theorem remediation_error_no_flag_witness :
    (∃ m, (run ⟨"secret", true, true, none, 0, 503, "", "", 200⟩).result = .error m ∧
      serviceFetch ⟨"secret", true, true, none, 0, 503, "", "", 200⟩
          ⟨"/deploy", "POST", some "secret"⟩
        = (⟨500, .jsonError m⟩, some (run ⟨"secret", true, true, none, 0, 503, "", "", 200⟩))) ∧
    (run ⟨"secret", true, true, none, 0, 503, "", "", 200⟩).flagWrite = none ∧
    (run ⟨"secret", true, true, none, 0, 503, "", "", 200⟩).kvAfter = none :=
  remediation_error_no_flag ⟨"secret", true, true, none, 0, 503, "", "", 200⟩
    ⟨"/deploy", "POST", some "secret"⟩ "secret" rfl rfl rfl (by decide) rfl
    (Or.inr (Or.inl ⟨by decide, by decide⟩))

/-! ## Lemmas about the codec -/

theorem utf8Decode_nil : utf8Decode [] = [] := by rw [utf8Decode]

theorem utf8Decode_cons (b0 : Nat) (rest : List Nat) :
    utf8Decode (b0 :: rest)
      = (utf8DecodeStep b0 rest).1
        :: utf8Decode (rest.drop (utf8DecodeStep b0 rest).2) := by
  rw [utf8Decode]

/-- Every Lean character is a Unicode scalar value: below the surrogate
block or between it and U+10FFFF. -/
theorem char_valid_nat (c : Char) :
    c.toNat < 0xD800 ∨ (0xE000 ≤ c.toNat ∧ c.toNat < 0x110000) := by
  rcases c.valid with h | h
  · left
    unfold Char.toNat
    omega
  · right
    unfold Char.toNat
    omega

/-- The decoder undoes the encoder one character at a time. -/
theorem utf8Decode_encodeChar (c : Char) (rest : List Nat) :
    utf8Decode (utf8EncodeChar c ++ rest) = c :: utf8Decode rest := by
  obtain ⟨n, hn, hofn, hval⟩ : ∃ n, c.toNat = n ∧ Char.ofNat n = c ∧
      (n < 0xD800 ∨ (0xE000 ≤ n ∧ n < 0x110000)) :=
    ⟨c.toNat, rfl, Char.ofNat_toNat c, char_valid_nat c⟩
  unfold utf8EncodeChar
  rw [hn]
  by_cases h1 : n < 0x80
  · rw [if_pos h1]
    simp only [List.cons_append, List.nil_append]
    rw [utf8Decode_cons]
    have hstep : utf8DecodeStep n rest = (Char.ofNat n, 0) := by
      unfold utf8DecodeStep
      rw [if_pos (by omega)]
    rw [hstep, List.drop_zero, hofn]
  · rw [if_neg h1]
    by_cases h2 : n < 0x800
    · rw [if_pos h2]
      simp only [List.cons_append, List.nil_append]
      rw [utf8Decode_cons]
      have c1 : ¬ (0xC0 + n / 0x40 ≤ 0x7F) := by omega
      have c2 : ¬ (0xC0 + n / 0x40 < 0xC2) := by omega
      have c3 : 0xC0 + n / 0x40 ≤ 0xDF := by omega
      have hcont : utf8Cont (0x80 + n % 0x40) = true := by
        unfold utf8Cont
        simp only [Bool.and_eq_true, decide_eq_true_eq]
        omega
      have hstep : utf8DecodeStep (0xC0 + n / 0x40) ((0x80 + n % 0x40) :: rest)
          = (Char.ofNat ((0xC0 + n / 0x40 - 0xC0) * 0x40
              + (0x80 + n % 0x40 - 0x80)), 1) := by
        simp [utf8DecodeStep, c1, c2, c3, hcont]
      rw [hstep]
      have harg : (0xC0 + n / 0x40 - 0xC0) * 0x40 + (0x80 + n % 0x40 - 0x80) = n := by
        omega
      rw [harg, hofn]
      simp only [List.drop_succ_cons, List.drop_zero]
    · rw [if_neg h2]
      by_cases h3 : n < 0x10000
      · rw [if_pos h3]
        simp only [List.cons_append, List.nil_append]
        rw [utf8Decode_cons]
        have c1 : ¬ (0xE0 + n / 0x1000 ≤ 0x7F) := by omega
        have c2 : ¬ (0xE0 + n / 0x1000 < 0xC2) := by omega
        have c3 : ¬ (0xE0 + n / 0x1000 ≤ 0xDF) := by omega
        have c4 : 0xE0 + n / 0x1000 ≤ 0xEF := by omega
        have hc3 : utf8Cont3 (0xE0 + n / 0x1000) (0x80 + n / 0x40 % 0x40) = true := by
          unfold utf8Cont3 utf8Cont
          by_cases hE : 0xE0 + n / 0x1000 = 0xE0
          · rw [if_pos hE]
            simp only [Bool.and_eq_true, decide_eq_true_eq]
            omega
          · rw [if_neg hE]
            by_cases hD : 0xE0 + n / 0x1000 = 0xED
            · rw [if_pos hD]
              simp only [Bool.and_eq_true, decide_eq_true_eq]
              rcases hval with hv | hv <;> omega
            · rw [if_neg hD]
              simp only [Bool.and_eq_true, decide_eq_true_eq]
              omega
        have hcont : utf8Cont (0x80 + n % 0x40) = true := by
          unfold utf8Cont
          simp only [Bool.and_eq_true, decide_eq_true_eq]
          omega
        have hstep : utf8DecodeStep (0xE0 + n / 0x1000)
            ((0x80 + n / 0x40 % 0x40) :: (0x80 + n % 0x40) :: rest)
            = (Char.ofNat ((0xE0 + n / 0x1000 - 0xE0) * 0x1000
                + (0x80 + n / 0x40 % 0x40 - 0x80) * 0x40
                + (0x80 + n % 0x40 - 0x80)), 2) := by
          simp [utf8DecodeStep, c1, c2, c3, c4, hc3, hcont]
        rw [hstep]
        have harg : (0xE0 + n / 0x1000 - 0xE0) * 0x1000
            + (0x80 + n / 0x40 % 0x40 - 0x80) * 0x40 + (0x80 + n % 0x40 - 0x80) = n := by
          omega
        rw [harg, hofn]
        simp only [List.drop_succ_cons, List.drop_zero]
      · rw [if_neg h3]
        simp only [List.cons_append, List.nil_append]
        rw [utf8Decode_cons]
        have hn4 : n < 0x110000 := by rcases hval with hv | hv <;> omega
        have c1 : ¬ (0xF0 + n / 0x40000 ≤ 0x7F) := by omega
        have c2 : ¬ (0xF0 + n / 0x40000 < 0xC2) := by omega
        have c3 : ¬ (0xF0 + n / 0x40000 ≤ 0xDF) := by omega
        have c4 : ¬ (0xF0 + n / 0x40000 ≤ 0xEF) := by omega
        have c5 : 0xF0 + n / 0x40000 ≤ 0xF4 := by omega
        have hc4 : utf8Cont4 (0xF0 + n / 0x40000) (0x80 + n / 0x1000 % 0x40) = true := by
          unfold utf8Cont4 utf8Cont
          by_cases hF : 0xF0 + n / 0x40000 = 0xF0
          · rw [if_pos hF]
            simp only [Bool.and_eq_true, decide_eq_true_eq]
            omega
          · rw [if_neg hF]
            by_cases hG : 0xF0 + n / 0x40000 = 0xF4
            · rw [if_pos hG]
              simp only [Bool.and_eq_true, decide_eq_true_eq]
              omega
            · rw [if_neg hG]
              simp only [Bool.and_eq_true, decide_eq_true_eq]
              omega
        have hcont2 : utf8Cont (0x80 + n / 0x40 % 0x40) = true := by
          unfold utf8Cont
          simp only [Bool.and_eq_true, decide_eq_true_eq]
          omega
        have hcont3 : utf8Cont (0x80 + n % 0x40) = true := by
          unfold utf8Cont
          simp only [Bool.and_eq_true, decide_eq_true_eq]
          omega
        have hstep : utf8DecodeStep (0xF0 + n / 0x40000)
            ((0x80 + n / 0x1000 % 0x40) :: (0x80 + n / 0x40 % 0x40)
              :: (0x80 + n % 0x40) :: rest)
            = (Char.ofNat ((0xF0 + n / 0x40000 - 0xF0) * 0x40000
                + (0x80 + n / 0x1000 % 0x40 - 0x80) * 0x1000
                + (0x80 + n / 0x40 % 0x40 - 0x80) * 0x40
                + (0x80 + n % 0x40 - 0x80)), 3) := by
          simp [utf8DecodeStep, c1, c2, c3, c4, c5, hc4, hcont2, hcont3]
        rw [hstep]
        have harg : (0xF0 + n / 0x40000 - 0xF0) * 0x40000
            + (0x80 + n / 0x1000 % 0x40 - 0x80) * 0x1000
            + (0x80 + n / 0x40 % 0x40 - 0x80) * 0x40 + (0x80 + n % 0x40 - 0x80) = n := by
          omega
        rw [harg, hofn]
        simp only [List.drop_succ_cons, List.drop_zero]

theorem utf8_roundtrip (cs : List Char) : utf8Decode (utf8Encode cs) = cs := by
  induction cs with
  | nil => rw [utf8Encode, utf8Decode_nil]
  | cons c cs ih => rw [utf8Encode, utf8Decode_encodeChar, ih]

theorem utf8EncodeChar_lt (c : Char) : ∀ b ∈ utf8EncodeChar c, b < 256 := by
  intro b hb
  have hn4 : c.toNat < 0x110000 := by
    rcases char_valid_nat c with hv | hv
    · omega
    · omega
  unfold utf8EncodeChar at hb
  by_cases h1 : c.toNat < 0x80
  · rw [if_pos h1] at hb
    simp only [List.mem_singleton] at hb
    omega
  · rw [if_neg h1] at hb
    by_cases h2 : c.toNat < 0x800
    · rw [if_pos h2] at hb
      simp only [List.mem_cons, List.not_mem_nil, or_false] at hb
      rcases hb with hb | hb <;> omega
    · rw [if_neg h2] at hb
      by_cases h3 : c.toNat < 0x10000
      · rw [if_pos h3] at hb
        simp only [List.mem_cons, List.not_mem_nil, or_false] at hb
        rcases hb with hb | hb | hb <;> omega
      · rw [if_neg h3] at hb
        simp only [List.mem_cons, List.not_mem_nil, or_false] at hb
        rcases hb with hb | hb | hb | hb <;> omega

theorem utf8Encode_lt (cs : List Char) : ∀ b ∈ utf8Encode cs, b < 256 := by
  induction cs with
  | nil => intro b hb; cases hb
  | cons c cs ih =>
    intro b hb
    rw [utf8Encode] at hb
    rcases List.mem_append.mp hb with hb | hb
    · exact utf8EncodeChar_lt c b hb
    · exact ih b hb

theorem b64Val_b64Char : ∀ i, i < 64 → b64Val (b64Char i) = some i := by decide

theorem b64Char_ne_newline (i : Nat) : b64Char i ≠ '\n' := by
  by_cases h : i < 64
  · exact (show ∀ j, j < 64 → b64Char j ≠ '\n' by decide) i h
  · unfold b64Char
    rw [List.getD_eq_default]
    · decide
    · have hl : b64Alphabet.length = 64 := by decide
      omega

theorem b64EncodeBytes_ne_newline (bs : List Nat) :
    ∀ ch ∈ b64EncodeBytes bs, ch ≠ '\n' := by
  induction bs using b64EncodeBytes.induct with
  | case1 => intro ch hc; cases hc
  | case2 b0 =>
    intro ch hc
    rw [b64EncodeBytes] at hc
    simp only [List.mem_cons, List.not_mem_nil, or_false] at hc
    rcases hc with hc | hc | hc | hc <;> subst hc
    · exact b64Char_ne_newline _
    · exact b64Char_ne_newline _
    · decide
    · decide
  | case3 b0 b1 =>
    intro ch hc
    rw [b64EncodeBytes] at hc
    simp only [List.mem_cons, List.not_mem_nil, or_false] at hc
    rcases hc with hc | hc | hc | hc <;> subst hc
    · exact b64Char_ne_newline _
    · exact b64Char_ne_newline _
    · exact b64Char_ne_newline _
    · decide
  | case4 b0 b1 b2 bs ih =>
    intro ch hc
    rw [b64EncodeBytes] at hc
    simp only [List.mem_cons] at hc
    rcases hc with hc | hc | hc | hc | hc
    · subst hc; exact b64Char_ne_newline _
    · subst hc; exact b64Char_ne_newline _
    · subst hc; exact b64Char_ne_newline _
    · subst hc; exact b64Char_ne_newline _
    · exact ih ch hc

/-- The newline strip of `base64DecodeUtf8` is the identity on encoder
output: `btoa` emits no newline. -/
theorem b64EncodeBytes_filter (bs : List Nat) :
    (b64EncodeBytes bs).filter (fun c => c ≠ '\n') = b64EncodeBytes bs := by
  apply List.filter_eq_self.mpr
  intro a ha
  simpa using b64EncodeBytes_ne_newline bs a ha

/-- `atob` undoes `btoa` on any byte list. -/
theorem b64_roundtrip (bs : List Nat) (h : ∀ b ∈ bs, b < 256) :
    b64DecodeBytes (b64EncodeBytes bs) = some bs := by
  induction bs using b64EncodeBytes.induct with
  | case1 => rw [b64EncodeBytes, b64DecodeBytes]
  | case2 b0 =>
    have hb0 : b0 < 256 := h b0 (by simp)
    have h0 : b64Val (b64Char (b0 / 4)) = some (b0 / 4) := b64Val_b64Char _ (by omega)
    have h1 : b64Val (b64Char (b0 % 4 * 16)) = some (b0 % 4 * 16) :=
      b64Val_b64Char _ (by omega)
    rw [b64EncodeBytes, b64DecodeBytes, h0, h1]
    have he : b64Val '=' = none := by decide
    rw [he]
    simp only [reduceIte, and_self, if_true, Option.some.injEq, List.cons.injEq, and_true]
    omega
  | case3 b0 b1 =>
    have hb0 : b0 < 256 := h b0 (by simp)
    have hb1 : b1 < 256 := h b1 (by simp)
    have h0 : b64Val (b64Char (b0 / 4)) = some (b0 / 4) := b64Val_b64Char _ (by omega)
    have h1 : b64Val (b64Char (b0 % 4 * 16 + b1 / 16)) = some (b0 % 4 * 16 + b1 / 16) :=
      b64Val_b64Char _ (by omega)
    have h2 : b64Val (b64Char (b1 % 16 * 4)) = some (b1 % 16 * 4) :=
      b64Val_b64Char _ (by omega)
    have he : b64Val '=' = none := by decide
    rw [b64EncodeBytes, b64DecodeBytes, h0, h1, h2, he]
    simp only [reduceIte, and_self, if_true, Option.some.injEq, List.cons.injEq, and_true]
    omega
  | case4 b0 b1 b2 bs ih =>
    have hb0 : b0 < 256 := h b0 (by simp)
    have hb1 : b1 < 256 := h b1 (by simp)
    have hb2 : b2 < 256 := h b2 (by simp)
    have h0 : b64Val (b64Char (b0 / 4)) = some (b0 / 4) := b64Val_b64Char _ (by omega)
    have h1 : b64Val (b64Char (b0 % 4 * 16 + b1 / 16)) = some (b0 % 4 * 16 + b1 / 16) :=
      b64Val_b64Char _ (by omega)
    have h2 : b64Val (b64Char (b1 % 16 * 4 + b2 / 64)) = some (b1 % 16 * 4 + b2 / 64) :=
      b64Val_b64Char _ (by omega)
    have h3 : b64Val (b64Char (b2 % 64)) = some (b2 % 64) := b64Val_b64Char _ (by omega)
    have hih : b64DecodeBytes (b64EncodeBytes bs) = some bs :=
      ih (fun b hb => h b (by simp [hb]))
    rw [b64EncodeBytes, b64DecodeBytes, h0, h1, h2, h3, hih]
    simp only [Option.map_some', Option.some.injEq, List.cons.injEq, and_true]
    omega

/-! ## Claim about the codec -/

/-- C10: for every well-formed Unicode string (a Lean `String` holds exactly
the scalar-value sequences, i.e. strings with no unpaired surrogates),
decoding the encoding returns the original: `base64DecodeUtf8` after
`base64EncodeUtf8` is the identity, so re-uploading rewritten content
cannot corrupt non-ASCII text. -/
theorem base64_utf8_roundtrip (s : String) :
    base64DecodeUtf8 (base64EncodeUtf8 s) = some s := by
  unfold base64EncodeUtf8 base64DecodeUtf8
  rw [show (String.mk (b64EncodeBytes (utf8Encode s.data))).data
        = b64EncodeBytes (utf8Encode s.data) from rfl]
  rw [b64EncodeBytes_filter, b64_roundtrip _ (utf8Encode_lt s.data)]
  simp only [Option.map_some']
  rw [utf8_roundtrip]

end GbKeepalive
